import Mathlib

/-!
# Verification of tinyopt's Gauss-Newton driver and solver classes

This file shallowly embeds the parts of the tinyopt repository that the
claims are about:

* `include/tinyopt/gn.h` — the `gn::GN` optimization driver loop, its
  `Options`, `Output` record, `StopReason` enum and the `Succeeded` /
  `Converged` predicates.
* `include/tinyopt/solvers/base.h` — `SolverBase::Clamp`.
* The `SolverGN` class (`nlls::gn` solver: `GetAccFunc`, `Build`, `Solve`)
  and the `SolverGD` class (`gd` solver: `GetAccFunc`, `Build`, `Solve`).

Scalars that can carry NaN / infinity (the driver's cost and the linear
algebra it sees) are modelled by the type `FP` below: a rational payload
plus the three IEEE non-finite values.  Rounding is not modelled — none of
the verified properties depend on it — but NaN/infinity propagation and
the total order used by the code's comparisons follow IEEE-754 semantics
(`NaN` compares false, `x - y` with non-finite operands, ...).

The dense linear algebra that the driver delegates to Eigen
(`ldlt().isPositive()`, `ldlt().solve`, `inverse()`) is external to the
repository; the embedding takes it as an explicit `LinSolver` oracle
parameter, and concrete theorems instantiate the oracle with the exact
behaviour Eigen has on the given (tiny) inputs.
-/

namespace Tinyopt

/-- IEEE-style scalar: a finite rational, `+inf`, `-inf` or `NaN`. -/
inductive FP where
  | fin (q : ℚ)
  | inf
  | ninf
  | nan
deriving DecidableEq

namespace FP

/-- `std::isnan`. -/
def isnan : FP → Bool
  | nan => true
  | _ => false

/-- IEEE negation. -/
def neg : FP → FP
  | fin q => fin (-q)
  | inf => ninf
  | ninf => inf
  | nan => nan

/-- IEEE addition (exact on finite values; rounding is not modelled). -/
def add : FP → FP → FP
  | nan, _ => nan
  | _, nan => nan
  | inf, ninf => nan
  | ninf, inf => nan
  | inf, _ => inf
  | _, inf => inf
  | ninf, _ => ninf
  | _, ninf => ninf
  | fin a, fin b => fin (a + b)

/-- IEEE subtraction. -/
def sub (a b : FP) : FP := a.add b.neg

/-- IEEE multiplication (exact on finite values). -/
def mul : FP → FP → FP
  | nan, _ => nan
  | _, nan => nan
  | inf, inf => inf
  | inf, ninf => ninf
  | ninf, inf => ninf
  | ninf, ninf => inf
  | inf, fin b => if b = 0 then nan else if 0 < b then inf else ninf
  | fin a, inf => if a = 0 then nan else if 0 < a then inf else ninf
  | ninf, fin b => if b = 0 then nan else if 0 < b then ninf else inf
  | fin a, ninf => if a = 0 then nan else if 0 < a then ninf else inf
  | fin a, fin b => fin (a * b)

/-- IEEE `<`: any comparison involving NaN is false. -/
def lt : FP → FP → Bool
  | nan, _ => false
  | _, nan => false
  | ninf, ninf => false
  | ninf, _ => true
  | _, ninf => false
  | inf, _ => false
  | fin _, inf => true
  | fin a, fin b => decide (a < b)

end FP

/-- `std::numeric_limits<float>::max()` (the exact value
`(2 - 2^-23) * 2^127 = 2^128 - 2^104`, stated as a literal so that kernel
evaluation stays cheap), used to initialize `Output::last_err2` in
`gn.h`. -/
def fltMax : ℚ := 340282346638528859811704183484516925440

/-- Sanity check: `fltMax` is the exact value of `FLT_MAX`. -/
theorem fltMax_eq : fltMax = 2 ^ 128 - 2 ^ 104 := by norm_num [fltMax]

/-- Dense vector of IEEE-style scalars (Eigen `Vector<Scalar, Size>`). -/
abbrev Vec (n : ℕ) := Fin n → FP

/-- Dense square matrix of IEEE-style scalars (Eigen `Matrix<Scalar, Size, Size>`). -/
abbrev Mat (n : ℕ) := Fin n → Fin n → FP

/-- Eigen `squaredNorm()`: sum of coefficientwise squares, accumulated
left to right from `0`. -/
def squaredNorm {n : ℕ} (v : Vec n) : FP :=
  (List.ofFn fun i => (v i).mul (v i)).foldl FP.add (FP.fin 0)

/-- Coefficientwise negation (`-v`). -/
def vneg {n : ℕ} (v : Vec n) : Vec n := fun i => (v i).neg

/-- The all-zero vector (`setZero`). -/
def vzero (n : ℕ) : Vec n := fun _ => FP.fin 0

/-- Matrix-vector product (row `i` dotted with `v`). -/
def matvec {n : ℕ} (M : Mat n) (v : Vec n) : Vec n :=
  fun i => (List.ofFn fun j => (M i j).mul (v j)).foldl FP.add (FP.fin 0)

/-- `JtJ.triangularView<Lower>() = JtJ.triangularView<Upper>().transpose()`
(gn.h lines 168-170 and the same statement in `SolverGN::Build`): every
entry on or below the diagonal is overwritten with its mirror from the
upper triangle; entries strictly above the diagonal are untouched. -/
def fillLower {n : ℕ} (H : Mat n) : Mat n :=
  fun i j => if j ≤ i then H j i else H i j

namespace gn

/-- `gn::Output::StopReason` (gn.h lines 58-68), in declaration order. -/
inductive StopReason where
  | kMaxIters
  | kMinDeltaNorm
  | kMinGradNorm
  | kMaxFails
  | kMaxConsecFails
  | kSystemHasNaNs
  | kSolverFailed
  | kNoResiduals
deriving DecidableEq

/-- `gn::Options` (gn.h lines 36-50).  `num_iters` is a `uint16_t` and the
failure budgets are `uint8_t` in the source; they are kept as naturals here
(every concrete run instantiates them within range).  The logging fields
have no observable effect on the embedded state and are omitted. -/
structure Options where
  ldlt : Bool := true
  JtJ_is_full : Bool := true
  num_iters : ℕ := 100
  min_delta_norm2 : ℚ := 0
  min_grad_norm2 : ℚ := mkRat 1 1000000000000
  max_total_failures : ℕ := 1
  max_consec_failures : ℕ := 1
  export_JtJ : Bool := true

/-- `gn::Output` (gn.h lines 56-93) with its in-class member initializers.
`num_failures` and `num_consec_failures` are `uint8_t` in the source and
wrap modulo 256; the embedding keeps them as naturals and applies `% 256`
at each increment. -/
structure Output (n : ℕ) where
  last_err2 : FP := FP.fin fltMax
  stop_reason : StopReason := StopReason.kMaxIters
  num_residuals : ℕ := 0
  num_iters : ℕ := 0
  num_failures : ℕ := 0
  num_consec_failures : ℕ := 0
  last_JtJ : Mat n := fun _ _ => FP.fin 0
  errs2 : List FP := []
  deltas2 : List FP := []
  successes : List Bool := []

/-- `Output::Succeeded` (gn.h lines 74-77). -/
def Output.Succeeded {n : ℕ} (o : Output n) : Bool :=
  !(o.stop_reason == StopReason.kSystemHasNaNs) &&
    !(o.stop_reason == StopReason.kSolverFailed) &&
      !(o.stop_reason == StopReason.kNoResiduals)

/-- `Output::Converged` (gn.h lines 78-80). -/
def Output.Converged {n : ℕ} (o : Output n) : Bool :=
  o.stop_reason == StopReason.kMinDeltaNorm ||
    o.stop_reason == StopReason.kMinGradNorm

/-- The accumulation functor `acc(X, JtJ, Jt_res)` as seen by the driver:
called with freshly zeroed `JtJ` / `Jt_res` buffers (gn.h lines 125-127),
it fills them and reports `(err, nerr)`.  A C++ functor may carry mutable
state, so the embedding lets its result also depend on the value of
`out.num_iters` at the time of the call. -/
def AccFn (α : Type) (n : ℕ) := ℕ → α → Mat n × Vec n × FP × ℕ

/-- The Eigen dense-linear-algebra entry points the driver delegates to
(gn.h lines 157, 159, 171).  Eigen is an external collaborator of the
repository; theorems about concrete runs instantiate this oracle with the
exact behaviour Eigen has on the inputs that actually occur. -/
structure LinSolver (n : ℕ) where
  isPositive : Mat n → Bool
  ldltSolve : Mat n → Vec n → Vec n
  inverse : Mat n → Mat n

/-- Driver-local state of `gn::GN` (gn.h lines 112-123): the parameter
`X`, the rollback snapshot `X_last_good`, the `already_rolled_true` flag
and the `Output` record under construction. -/
structure GNState (α : Type) (n : ℕ) where
  X : α
  X_last_good : α
  already_rolled_true : Bool
  out : Output n

/-- The quantities one iteration of `gn::GN` computes before updating the
state: the accumulation result, the inner solver loop's outcome
(gn.h lines 151-180) and the step/descent measurements
(gn.h lines 182-200). -/
structure IterData (n : ℕ) where
  JtJ : Mat n
  Jt_res : Vec n
  err : FP
  nerr : ℕ
  skip_solver : Bool
  entered : Bool
  chol_failed : Bool
  JtJ1 : Mat n
  dX : Vec n
  solver_failed : Bool
  dX_norm2 : FP
  Jt_res_norm2 : FP
  derr : FP
  good : Bool

/-- `max_tries` (gn.h lines 113-114). -/
def maxTries (opts : Options) : ℕ :=
  if opts.max_consec_failures > 0 then max 1 opts.max_total_failures else 255

/-- Faithful recomputation of the intermediate values of one iteration of
`gn::GN` (gn.h lines 125-200): accumulate, run the inner solver loop
(which executes its body at most once — every path through it breaks),
and measure the step.  `fillLower` is applied to `JtJ` exactly when the
explicit-inverse path runs with `JtJ_is_full == false`. -/
def mkIterData {α : Type} {n : ℕ} (opts : Options) (ls : LinSolver n)
    (acc : AccFn α n) (s : GNState α n) : IterData n :=
  let r := acc s.out.num_iters s.X
  let JtJ := r.1
  let Jt_res := r.2.1
  let err := r.2.2.1
  let nerr := r.2.2.2
  let skip_solver := nerr == 0
  let entered := !skip_solver && s.out.num_consec_failures ≤ maxTries opts
  let chol_failed := entered && opts.ldlt && !ls.isPositive JtJ
  let JtJ1 :=
    if entered && !opts.ldlt && !opts.JtJ_is_full then fillLower JtJ else JtJ
  let dX : Vec n :=
    if entered then
      if opts.ldlt then
        if ls.isPositive JtJ then vneg (ls.ldltSolve JtJ Jt_res) else vzero n
      else vneg (matvec (ls.inverse JtJ1) Jt_res)
    else vzero n
  let solver_failed :=
    if entered then (if opts.ldlt then !ls.isPositive JtJ else false)
    else skip_solver
  let dX_norm2 := if solver_failed then FP.fin 0 else squaredNorm dX
  let Jt_res_norm2 :=
    if opts.min_grad_norm2 = 0 then FP.fin 0 else squaredNorm Jt_res
  let derr := err.sub s.out.last_err2
  let good := derr.lt (FP.fin 0) && !solver_failed
  { JtJ := JtJ, Jt_res := Jt_res, err := err, nerr := nerr,
    skip_solver := skip_solver, entered := entered,
    chol_failed := chol_failed, JtJ1 := JtJ1, dX := dX,
    solver_failed := solver_failed, dX_norm2 := dX_norm2,
    Jt_res_norm2 := Jt_res_norm2, derr := derr, good := good }

/-- The trailing convergence checks of one iteration
(gn.h lines 263-270), reached whenever the iteration neither broke out
earlier nor detected a failure: returns the updated state and whether the
loop continues. -/
def tailChecks {α : Type} {n : ℕ} (opts : Options) (d : IterData n)
    (s : GNState α n) : GNState α n × Bool :=
  if opts.min_delta_norm2 > 0 ∧ d.dX_norm2.lt (FP.fin opts.min_delta_norm2) then
    ({ s with out := { s.out with stop_reason := StopReason.kMinDeltaNorm } }, false)
  else if opts.min_grad_norm2 > 0 ∧ d.Jt_res_norm2.lt (FP.fin opts.min_grad_norm2) then
    ({ s with out := { s.out with stop_reason := StopReason.kMinGradNorm } }, false)
  else (s, true)

/-- One full iteration of the `gn::GN` loop body (gn.h lines 124-270).
Returns the updated state and `true` when the `for` loop continues to the
next iteration (in the source, reaching the end of the body), `false` on
any `break`.  Note two faithful quirks of the source:

* when `std::isnan(dX_norm2)` the body `break`s at line 192 *without*
  assigning a stop reason — the `system_has_nans` check at lines 256-258
  is unreachable, so `stop_reason` keeps its earlier value;
* a zero-residual iteration pushes `0 / 0 / false` into the history at
  lines 140-142 and, when it is not the first iteration, falls through to
  the accept/reject logic which pushes a second entry. -/
def GNstep {α : Type} {n : ℕ} (opts : Options) (pluseq : α → Vec n → α)
    (d : IterData n) (s : GNState α n) : GNState α n × Bool :=
  let out0 : Output n := { s.out with num_residuals := d.nerr }
  let out1 : Output n :=
    if d.nerr = 0 then
      { out0 with errs2 := out0.errs2 ++ [FP.fin 0],
                  deltas2 := out0.deltas2 ++ [FP.fin 0],
                  successes := out0.successes ++ [false] }
    else out0
  if d.nerr = 0 ∧ s.out.num_iters = 0 then
    ({ s with out := { out1 with stop_reason := StopReason.kNoResiduals } }, false)
  else
    -- inner solver loop side effects on the failure counters (gn.h 176-179)
    let out2 : Output n :=
      if d.chol_failed then
        { out1 with num_consec_failures := (out1.num_consec_failures + 1) % 256,
                    num_failures := (out1.num_failures + 1) % 256 }
      else out1
    if d.dX_norm2.isnan then
      -- gn.h lines 185-193: break out of the main loop, stop_reason untouched
      ({ s with out := out2 }, false)
    else
      let out3 : Output n :=
        { out2 with errs2 := out2.errs2 ++ [d.err],
                    deltas2 := out2.deltas2 ++ [d.dX_norm2] }
      if d.good then
        -- GOOD step (gn.h lines 200-224)
        let X_last_good := if s.out.num_iters > 0 then s.X else s.X_last_good
        let X := pluseq s.X d.dX
        let out4 : Output n :=
          { out3 with successes := out3.successes ++ [true],
                      last_err2 := d.err,
                      last_JtJ := if opts.export_JtJ then d.JtJ1 else out3.last_JtJ,
                      num_consec_failures := 0 }
        let s' : GNState α n :=
          { X := X, X_last_good := X_last_good,
            already_rolled_true := false, out := out4 }
        tailChecks opts d s'
      else
        -- BAD step (gn.h lines 225-255)
        let out4 : Output n := { out3 with successes := out3.successes ++ [false] }
        let X := if !s.already_rolled_true then s.X_last_good else s.X
        let rolled := if !s.already_rolled_true then true else s.already_rolled_true
        let out5 : Output n :=
          { out4 with num_failures := (out4.num_failures + 1) % 256,
                      num_consec_failures := (out4.num_consec_failures + 1) % 256 }
        let s' : GNState α n :=
          { X := X, X_last_good := s.X_last_good,
            already_rolled_true := rolled, out := out5 }
        if opts.max_consec_failures > 0 ∧
            out5.num_consec_failures ≥ opts.max_consec_failures then
          ({ s' with out := { out5 with stop_reason := StopReason.kMaxConsecFails } }, false)
        else if opts.max_total_failures > 0 ∧
            out5.num_failures ≥ opts.max_total_failures then
          ({ s' with out := { out5 with stop_reason := StopReason.kMaxFails } }, false)
        else if d.solver_failed then
          -- gn.h lines 259-262
          ({ s' with out := { out5 with stop_reason := StopReason.kSolverFailed } }, false)
        else tailChecks opts d s'

/-- One full iteration of the `gn::GN` loop body: measure with
`mkIterData`, then update the state with `GNstep`. -/
def GNiter {α : Type} {n : ℕ} (opts : Options) (pluseq : α → Vec n → α)
    (ls : LinSolver n) (acc : AccFn α n) (s : GNState α n) :
    GNState α n × Bool :=
  GNstep opts pluseq (mkIterData opts ls acc s) s

/-- The `for` loop of `gn::GN` (gn.h line 124), with the remaining
iteration budget `options.num_iters + 1 - out.num_iters` made explicit as
fuel; `out.num_iters` is incremented exactly when the body reaches its end
without breaking. -/
def GNloop {α : Type} {n : ℕ} (opts : Options) (pluseq : α → Vec n → α)
    (ls : LinSolver n) (acc : AccFn α n) :
    ℕ → GNState α n → GNState α n
  | 0, s => s
  | fuel + 1, s =>
    let r := GNiter opts pluseq ls acc s
    if r.2 then
      GNloop opts pluseq ls acc fuel
        { r.1 with out := { r.1.out with num_iters := r.1.out.num_iters + 1 } }
    else r.1

/-- Initial driver state of `gn::GN` (gn.h lines 112-123).  Note the
faithful quirk at lines 117-119: `errs2` is `reserve`d (stays empty) but
`deltas2.emplace_back(out.num_iters + 2)` and
`successes.emplace_back(out.num_iters + 2)` *append* the values
`float(2)` and `bool(2) = true`. -/
def GNinit {α : Type} (n : ℕ) (X0 : α) : GNState α n :=
  { X := X0, X_last_good := X0, already_rolled_true := true,
    out := { deltas2 := [FP.fin 2], successes := [true] } }

/-- `gn::GN` (gn.h lines 100-273): run the loop from the initial state. -/
def GN {α : Type} {n : ℕ} (opts : Options) (pluseq : α → Vec n → α)
    (ls : LinSolver n) (acc : AccFn α n) (X0 : α) : GNState α n :=
  GNloop opts pluseq ls acc (opts.num_iters + 1) (GNinit n X0)

/-- `params_trait<Scalar>::pluseq` for a scalar parameter
(traits.h lines 80-82): `v += delta[0]`. -/
def scalarPluseq : FP → Vec 1 → FP := fun v d => v.add (d 0)

end gn

/-! ## The solver classes (`SolverBase`, `SolverGN`, `SolverGD`)

The properties claimed about these classes (clamping bounds, triangle
mirroring, solve-failure conditions) are exact control-flow and
assignment facts in which float rounding plays no role, so this part of
the embedding uses plain rationals. -/

/-- Dense rational vector. -/
abbrev VecQ (n : ℕ) := Fin n → ℚ

/-- Dense rational square matrix. -/
abbrev MatQ (n : ℕ) := Fin n → Fin n → ℚ

/-- Coefficientwise negation over `ℚ`. -/
def vnegQ {n : ℕ} (v : VecQ n) : VecQ n := fun i => -(v i)

/-- Matrix-vector product over `ℚ`. -/
def matvecQ {n : ℕ} (M : MatQ n) (v : VecQ n) : VecQ n :=
  fun i => ∑ j, M i j * v j

/-- `H_.triangularView<Lower>() = H_.triangularView<Upper>().transpose()`
over `ℚ` (`SolverGN::Build`, and gn.h lines 168-170). -/
def fillLowerQ {n : ℕ} (H : MatQ n) : MatQ n :=
  fun i j => if j ≤ i then H j i else H i j

namespace solvers

/-- `SolverBase::Clamp` (solvers/base.h lines 40-49), vector overload:
if `minmax == 0` return `false` leaving `g` untouched, otherwise
`g = g.cwiseMax(-minmax).cwiseMin(minmax)` and return `true`.  Returns
the updated gradient together with the boolean result. -/
def Clamp {n : ℕ} (g : VecQ n) (minmax : ℚ) : VecQ n × Bool :=
  if minmax = 0 then (g, false)
  else ((fun i => min (max (g i) (-minmax)) minmax), true)

/-- The raw return value of a user residual function as dispatched by
`SolverGN::GetAccFunc`: a plain scalar, a `(cost, count)` pair, or a
vector/matrix of residuals (flattened here to its list of
coefficients). -/
inductive UserRet where
  | scalar (s : ℚ)
  | pair (s : ℚ) (count : ℕ)
  | vec (r : List ℚ)

/-- Squared L2 / Frobenius norm of a coefficient list (`squaredNorm()`). -/
def sqNorm (r : List ℚ) : ℚ := (r.map fun a => a * a).sum

/-- Specification of Eigen's `norm()` on a coefficient list: the
nonnegative scalar whose square is the squared norm.  (The exact value is
irrational in general, so the embedding passes `norm()` as an oracle
constrained by this predicate.) -/
def isNormOf (r : List ℚ) (c : ℚ) : Prop := 0 ≤ c ∧ c * c = sqNorm r

/-- `SolverGN::GetAccFunc` (the `nlls::gn` solver, lines 119-134 of its
file): a scalar return becomes `(output, 1)`, a pair passes through
verbatim, and a vector/matrix return becomes
`std::make_pair(output.norm(), output.size())`.  `normOf` is the Eigen
`norm()` oracle. -/
def GetAccFunc (normOf : List ℚ → ℚ) : UserRet → ℚ × ℕ
  | UserRet.scalar s => (s, 1)
  | UserRet.pair s count => (s, count)
  | UserRet.vec r => (normOf r, r.length)

/-- The adapter the specification describes for a vector return:
`cost = squared L2 (or Frobenius) norm`, `residual_count = length`.
(Stated from the spec, to be compared with `GetAccFunc`.) -/
def specVecAdapter (r : List ℚ) : ℚ × ℕ := (sqNorm r, r.length)

/-- The fields of `solvers::Options2` (from `solvers/options.h`, which is
not under src/) that `SolverGN` reads; their meaning is fixed entirely by
their uses in `SolverGN::Build` / `Solve` / `Accumulate`, which are under
src/.  The `err.*` cost-normalization flags are grouped inline. -/
structure Options2 where
  use_ldlt : Bool
  H_is_full : Bool
  grad_clipping : ℚ
  check_min_H_diag : ℚ
  err_use_squared_norm : Bool
  err_downscale_by_2 : Bool
  err_normalize : Bool

/-- The mutable state of a `SolverGN<Hessian_t>` instance: the owned
Hessian `H_` and gradient `grad_` buffers plus the last cost record
`err_` / `nerr_` from `SolverBase`. -/
structure GNSolver (n : ℕ) where
  H : MatQ n
  grad : VecQ n
  err : ℚ
  nerr : ℕ

/-- `SolverGN::clear`: zero `H_` and `grad_`. -/
def GNSolver.clear {n : ℕ} (st : GNSolver n) : GNSolver n :=
  { st with H := fun _ _ => 0, grad := fun _ => 0 }

/-- A user residual function as called by `SolverGN::Accumulate`: it
receives `x` and the current gradient/Hessian buffers, mutates them, and
returns its raw output. -/
def ResFunc (α : Type) (n : ℕ) := α → VecQ n → MatQ n → VecQ n × MatQ n × UserRet

/-- `SolverGN::Accumulate` (lines 168-178 of its file): run the adapted
accumulation function, apply the cost-normalization options
(`sqrt` via the `sqrtFn` oracle when `use_squared_norm` is off,
halving, per-residual normalization), store `err_` / `nerr_`, and
report `ne > 0`. -/
def GNSolver.Accumulate {α : Type} {n : ℕ} (normOf : List ℚ → ℚ)
    (sqrtFn : ℚ → ℚ) (opts : Options2) (st : GNSolver n)
    (res_func : ResFunc α n) (x : α) : GNSolver n × Bool :=
  let w := res_func x st.grad st.H
  let p := GetAccFunc normOf w.2.2
  let e0 := p.1
  let ne := p.2
  let e1 := if !opts.err_use_squared_norm then sqrtFn e0 else e0
  let e2 := if opts.err_downscale_by_2 then e1 * (1 / 2) else e1
  let e3 := if opts.err_normalize ∧ 0 < ne then e2 / ne else e2
  ({ st with grad := w.1, H := w.2.1, err := e3, nerr := ne }, 0 < ne)

/-- `SolverGN::Build` (lines 182-211 of its file): optionally clear the
system, accumulate, bail out on zero residuals *before* clamping, clamp
the gradient, check the Hessian diagonal, and mirror the upper triangle
into the lower one exactly when `!H_is_full && !use_ldlt`.  Returns the
final state and the boolean result. -/
def GNSolver.Build {α : Type} {n : ℕ} (normOf : List ℚ → ℚ)
    (sqrtFn : ℚ → ℚ) (opts : Options2) (st : GNSolver n)
    (res_func : ResFunc α n) (x : α) (resize_and_clear : Bool := true) :
    GNSolver n × Bool :=
  let st0 := if resize_and_clear then st.clear else st
  let r := GNSolver.Accumulate normOf sqrtFn opts st0 res_func x
  if !r.2 then (r.1, false)
  else
    let st1 : GNSolver n := { r.1 with grad := (Clamp r.1.grad opts.grad_clipping).1 }
    if opts.check_min_H_diag > 0 ∧ ∃ i, |st1.H i i| < opts.check_min_H_diag then
      (st1, false)
    else
      let st2 : GNSolver n :=
        if !opts.H_is_full && !opts.use_ldlt then
          { st1 with H := fillLowerQ st1.H }
        else st1
      (st2, true)

/-- `SolverGN::Solve` (lines 214-231 of its file) for a dense Hessian of
static dimension other than 1: `nullopt` when the last residual count is
zero; on the LDLT path, `-dx` when `tinyopt::SolveLDLT` (the external
factorization, passed as the `ldltSolve` oracle) succeeds and `nullopt`
when it fails; on the explicit-inverse path, always
`-H_.inverse() * grad_` (the `invQ` oracle). -/
def GNSolver.SolveD {n : ℕ} (ldltSolve : MatQ n → VecQ n → Option (VecQ n))
    (invQ : MatQ n → MatQ n) (opts : Options2) (st : GNSolver n) :
    Option (VecQ n) :=
  if st.nerr = 0 then none
  else if opts.use_ldlt then
    match ldltSolve st.H st.grad with
    | some dx => some (vnegQ dx)
    | none => none
  else some (vnegQ (matvecQ (invQ st.H) st.grad))

/-- `SolverGN::Solve` for the compile-time `Dims == 1` instantiation: the
explicit-inverse branch returns `-H_.inverse() * grad_` only when
`H_(0,0) > FloatEpsilon<Scalar>()` and otherwise the zero vector
(still a present value, not `nullopt`). -/
def GNSolver.Solve1 (ldltSolve : MatQ 1 → VecQ 1 → Option (VecQ 1))
    (eps : ℚ) (opts : Options2) (st : GNSolver 1) : Option (VecQ 1) :=
  if st.nerr = 0 then none
  else if opts.use_ldlt then
    match ldltSolve st.H st.grad with
    | some dx => some (vnegQ dx)
    | none => none
  else if eps < st.H 0 0 then some (fun _ => -((st.H 0 0)⁻¹ * st.grad 0))
  else some (fun _ => 0)

/-- The raw return value of a user accumulation function as dispatched by
`SolverGD::GetAccFunc`: only a scalar or a `(cost, count)` pair — a
vector return is rejected at compile time by the `static_assert` in its
final branch. -/
inductive UserRetGD where
  | scalar (s : ℚ)
  | pair (s : ℚ) (count : ℕ)

/-- `SolverGD::GetAccFunc` (lines 101-128 of its file): scalar becomes
`(output, 1)`, a pair passes through verbatim. -/
def GetAccFuncGD : UserRetGD → ℚ × ℕ
  | UserRetGD.scalar s => (s, 1)
  | UserRetGD.pair s count => (s, count)

/-- The fields of `gd::SolverOptions` (`solvers::Options1` plus `lr`)
that `SolverGD` reads. -/
structure OptionsGD where
  grad_clipping : ℚ
  lr : ℚ

/-- Mutable state of a `SolverGD<Gradient_t>` instance. -/
structure GDSolver (n : ℕ) where
  grad : VecQ n
  err : ℚ
  nerr : ℕ

/-- A user accumulation function as called by `SolverGD::Accumulate`. -/
def AccFuncGD (α : Type) (n : ℕ) := α → VecQ n → VecQ n × UserRetGD

/-- `SolverGD::Build` (lines 155-167 of its file): optionally clear the
gradient, accumulate (`err_` / `nerr_` stored verbatim, no cost
normalization in this solver), then *always* clamp the gradient, and
return the accumulation result `ne > 0`. -/
def GDSolver.Build {α : Type} {n : ℕ} (opts : OptionsGD) (st : GDSolver n)
    (acc : AccFuncGD α n) (x : α) (resize_and_clear : Bool := true) :
    GDSolver n × Bool :=
  let st0 := if resize_and_clear then { st with grad := fun _ => 0 } else st
  let w := acc x st0.grad
  let p := GetAccFuncGD w.2
  let st1 := { st0 with grad := w.1, err := p.1, nerr := p.2 }
  let ok := 0 < p.2
  (({ st1 with grad := (Clamp st1.grad opts.grad_clipping).1 }), ok)

end solvers

namespace nlls

/-- Modelled from the spec: the `StopReason` enumeration of the current
optimizer generation (`tinyopt/output.h`, referenced by
`solvers/base.h` and by `tests/basic.cpp` but not present under src/).
Reasons are taken from the spec's termination-predicate list in §4.4 and
error taxonomy in §7 (`OutOfMemory` from §7(e) and the tests). -/
inductive StopReason where
  | kSystemHasNaNOrInf
  | kSkipped
  | kSolverFailed
  | kOutOfMemory
  | kTimedOut
  | kMaxConsecFails
  | kMaxFails
  | kMinDeltaNorm
  | kMinGradNorm
  | kMinError
  | kMaxIters
deriving DecidableEq

/-- Modelled from the spec: `Output::Converged` of the current optimizer
generation (not under src/; `tests/basic.cpp` requires `Converged()` to
hold for a `kMinError` stop and to fail for budget stops) — the spec:
"Converged is true only for `MinDeltaNorm`, `MinGradNorm`,
`MinError`". -/
def Converged : StopReason → Bool := fun r =>
  r == StopReason.kMinDeltaNorm || r == StopReason.kMinGradNorm ||
    r == StopReason.kMinError

end nlls

/-! ## Concrete scenarios

Each scenario fixes an evaluator, a `LinSolver` oracle whose behaviour is
the one Eigen exhibits on the (1×1) systems the run actually produces,
and an explicit `Options` record. -/

namespace gn

/-- A 1×1 evaluator with a healthy system: `JtJ = [[1]]`,
`Jt_res = [1]`, cost `1`, one residual. -/
def accHealthy : AccFn FP 1 := fun _ _ =>
  (fun _ _ => FP.fin 1, fun _ => FP.fin 1, FP.fin 1, 1)

/-- A 1×1 evaluator returning a NaN gradient (`grad(0) = NAN`) with a
finite Hessian `[[1]]` and finite cost `1` — the first failure scenario
of `tests/basic.cpp`. -/
def accNanGrad : AccFn FP 1 := fun _ _ =>
  (fun _ _ => FP.fin 1, fun _ => FP.nan, FP.fin 1, 1)

/-- A 1×1 evaluator reporting zero residuals (cost `0`, count `0`). -/
def accNoResiduals : AccFn FP 1 := fun _ _ =>
  (fun _ _ => FP.fin 0, fun _ => FP.fin 0, FP.fin 0, 0)

/-- A 1×1 evaluator with a healthy system on the first call and zero
residuals on every later call. -/
def accLateNoResiduals : AccFn FP 1 := fun k _ =>
  if k = 0 then (fun _ _ => FP.fin 1, fun _ => FP.fin 1, FP.fin 1, 1)
  else (fun _ _ => FP.fin 0, fun _ => FP.fin 0, FP.fin 0, 0)

/-- A 1×1 evaluator whose Hessian is `[[-1]]` (not positive definite)
with finite cost `1` and one residual. -/
def accNegHessian : AccFn FP 1 := fun _ _ =>
  (fun _ _ => FP.fin (-1), fun _ => FP.fin 1, FP.fin 1, 1)

/-- Eigen's behaviour on the 1×1 systems of the healthy scenarios:
`ldlt()` of `[[1]]` is positive (`D = [1]`) and `solve(b)` returns `b`
itself; `inverse()` of `[[1]]` is `[[1]]`.  Applied to a NaN right-hand
side, `solve` propagates the NaN (`b / 1 = NaN`). -/
def lsIdentity : LinSolver 1 :=
  { isPositive := fun _ => true,
    ldltSolve := fun _ b => b,
    inverse := fun _ => fun _ _ => FP.fin 1 }

/-- Eigen's behaviour on `ldlt()` of `[[-1]]`: `isPositive()` is false
(`D = [-1]`). -/
def lsNotPositive : LinSolver 1 :=
  { isPositive := fun _ => false,
    ldltSolve := fun _ b => b,
    inverse := fun _ => fun _ _ => FP.fin 1 }

/-- The default `gn::Options` with both squared-norm thresholds disabled
(`min_delta_norm2 = min_grad_norm2 = 0`), spelled out field by field. -/
def optsPlain : Options :=
  { ldlt := true, JtJ_is_full := true, num_iters := 4,
    min_delta_norm2 := 0, min_grad_norm2 := 0,
    max_total_failures := 1, max_consec_failures := 1, export_JtJ := true }

/-- `optsPlain` with the explicit-inverse solver and an
upper-triangle-only `JtJ`. -/
def optsUpperInv : Options :=
  { ldlt := false, JtJ_is_full := false, num_iters := 4,
    min_delta_norm2 := 0, min_grad_norm2 := 0,
    max_total_failures := 1, max_consec_failures := 1, export_JtJ := true }

/-- `optsPlain` with both failure budgets raised to 10, so that a single
failed step exhausts no budget. -/
def optsBudget10 : Options :=
  { ldlt := true, JtJ_is_full := true, num_iters := 4,
    min_delta_norm2 := 0, min_grad_norm2 := 0,
    max_total_failures := 10, max_consec_failures := 10, export_JtJ := true }

/-- Run of `gn::GN` on the NaN-gradient evaluator from `x0 = 1`. -/
def runNanGrad : GNState FP 1 :=
  GN optsPlain scalarPluseq lsIdentity accNanGrad (FP.fin 1)

/-- Run of `gn::GN` on the zero-residual evaluator from `x0 = 1`. -/
def runNoResiduals : GNState FP 1 :=
  GN optsPlain scalarPluseq lsIdentity accNoResiduals (FP.fin 1)

/-- Run of `gn::GN` on the evaluator that loses its residuals after the
first (successful) iteration, with generous failure budgets. -/
def runLateNoResiduals : GNState FP 1 :=
  GN optsBudget10 scalarPluseq lsIdentity accLateNoResiduals (FP.fin 1)

/-- Run of `gn::GN` on the negative-Hessian evaluator: the cost `1` is
strictly below the initial `last_err2 = FLT_MAX`, but the Cholesky
factorization fails. -/
def runCholReject : GNState FP 1 :=
  GN optsPlain scalarPluseq lsNotPositive accNegHessian (FP.fin 1)

/-- A driver state as it stands at the start of the second iteration of
`runLateNoResiduals`: the first step was accepted and moved `x` from `1`
to `0`. -/
def stateAfterGoodStep : GNState FP 1 :=
  { X := FP.fin 0, X_last_good := FP.fin 1, already_rolled_true := false,
    out := { last_err2 := FP.fin 1, stop_reason := StopReason.kMaxIters,
             num_residuals := 1, num_iters := 1, num_failures := 0,
             num_consec_failures := 0, last_JtJ := fun _ _ => FP.fin 1,
             errs2 := [FP.fin 1], deltas2 := [FP.fin 2, FP.fin 1],
             successes := [true, true] } }

end gn

namespace solvers

/-- `Options2` with LDLT and a fully-filled Hessian, no clipping, no
diagonal check, squared-norm costs. -/
def opts2Plain : Options2 :=
  { use_ldlt := true, H_is_full := true, grad_clipping := 0,
    check_min_H_diag := 0, err_use_squared_norm := true,
    err_downscale_by_2 := false, err_normalize := false }

/-- `opts2Plain` with gradient clipping at `5`. -/
def opts2Clip5 : Options2 :=
  { opts2Plain with grad_clipping := 5 }

/-- `opts2Plain` with the explicit-inverse solver and an
upper-triangle-only Hessian. -/
def opts2UpperInv : Options2 :=
  { opts2Plain with use_ldlt := false, H_is_full := false }

/-- The all-zero `SolverGN` state of dimension `n`. -/
def gnZero (n : ℕ) : GNSolver n :=
  { H := fun _ _ => 0, grad := fun _ => 0, err := 0, nerr := 0 }

/-- A 2-dimensional residual function writing only the upper triangle of
the Hessian (`[[1, 2], [0, 3]]`), a zero gradient, and one residual of
cost `1`. -/
def resUpper2 : ResFunc Unit 2 := fun _ g _ =>
  (g, fun i j => if i = 0 ∧ j = 0 then 1 else if i = 0 ∧ j = 1 then 2
    else if i = 1 ∧ j = 1 then 3 else 0, UserRet.pair 1 1)

/-- A 1-dimensional residual function that writes the huge gradient
coefficient `100` but reports zero residuals. -/
def resBigGradNoRes : ResFunc Unit 1 := fun _ _ h =>
  (fun _ => 100, h, UserRet.pair 1 0)

/-- A 1-dimensional residual function writing gradient `7` with one
residual of cost `1`. -/
def resGrad7 : ResFunc Unit 1 := fun _ _ h =>
  (fun _ => 7, h, UserRet.pair 1 1)

/-- A 1-dimensional accumulation function for `SolverGD` writing
gradient `7` with one residual of cost `1`. -/
def accGrad7GD : AccFuncGD Unit 1 := fun _ _ =>
  (fun _ => 7, UserRetGD.pair 1 1)

/-- `gd::SolverOptions` with clipping at `5` and unit learning rate. -/
def optsGDClip5 : OptionsGD := { grad_clipping := 5, lr := 1 }

end solvers

/-! ## Shared lemmas -/

/-- Mirroring the upper triangle produces a symmetric matrix. -/
theorem fillLowerQ_symm {n : ℕ} (H : MatQ n) (i j : Fin n) :
    fillLowerQ H i j = fillLowerQ H j i := by
  unfold fillLowerQ
  rcases lt_trichotomy i j with h | rfl | h
  · rw [if_neg (not_le.mpr h), if_pos (le_of_lt h)]
  · rfl
  · rw [if_pos (le_of_lt h), if_neg (not_le.mpr h)]

/-- Mirroring the upper triangle produces a symmetric matrix (driver-side
`FP` version, gn.h lines 168-170). -/
theorem fillLower_symm {n : ℕ} (H : Mat n) (i j : Fin n) :
    fillLower H i j = fillLower H j i := by
  unfold fillLower
  rcases lt_trichotomy i j with h | rfl | h
  · rw [if_neg (not_le.mpr h), if_pos (le_of_lt h)]
  · rfl
  · rw [if_pos (le_of_lt h), if_neg (not_le.mpr h)]

/-- Mirroring the upper triangle leaves the upper triangle (diagonal
included) untouched. -/
theorem fillLowerQ_upper {n : ℕ} (H : MatQ n) (i j : Fin n) (h : i ≤ j) :
    fillLowerQ H i j = H i j := by
  unfold fillLowerQ
  rcases lt_or_eq_of_le h with h' | rfl
  · rw [if_neg (not_le.mpr h')]
  · rw [if_pos le_rfl]

/-- With a positive bound, every clamped coefficient lies within the
bound. -/
theorem clamp_mem {n : ℕ} (g : VecQ n) (c : ℚ) (hc : 0 < c) (i : Fin n) :
    -c ≤ (solvers.Clamp g c).1 i ∧ (solvers.Clamp g c).1 i ≤ c := by
  unfold solvers.Clamp
  rw [if_neg hc.ne']
  refine ⟨le_min (le_max_right _ _) (by linarith), min_le_right _ _⟩

/-- A zero residual count makes the inner solver loop report failure:
`skip_solver` holds, the loop body is never entered, no Cholesky failure
is recorded, `dX_norm2` is zero and the step cannot be good. -/
theorem mkIterData_nerr_zero {α : Type} {n : ℕ} (opts : gn.Options)
    (ls : gn.LinSolver n) (acc : gn.AccFn α n) (s : gn.GNState α n)
    (h : (gn.mkIterData opts ls acc s).nerr = 0) :
    (gn.mkIterData opts ls acc s).solver_failed = true ∧
      (gn.mkIterData opts ls acc s).chol_failed = false ∧
      (gn.mkIterData opts ls acc s).dX_norm2 = FP.fin 0 ∧
      (gn.mkIterData opts ls acc s).good = false := by
  simp only [gn.mkIterData] at h ⊢
  simp [h]

/-- A zero-residual iteration after the first one: the step is counted
as a failure (both counters incremented once, the step rejected), and
the loop breaks out of the iteration in every case — with a budget stop
reason when a failure budget is reached, otherwise with
`kSolverFailed`. -/
theorem GNstep_nerr_zero_later {α : Type} {n : ℕ} (opts : gn.Options)
    (pe : α → Vec n → α) (d : gn.IterData n) (s : gn.GNState α n)
    (hn : d.nerr = 0) (hk : s.out.num_iters ≠ 0)
    (hsf : d.solver_failed = true) (hch : d.chol_failed = false)
    (hnan : d.dX_norm2.isnan = false) (hg : d.good = false) :
    (gn.GNstep opts pe d s).2 = false ∧
      (gn.GNstep opts pe d s).1.out.num_failures =
        (s.out.num_failures + 1) % 256 ∧
      (gn.GNstep opts pe d s).1.out.num_consec_failures =
        (s.out.num_consec_failures + 1) % 256 ∧
      (gn.GNstep opts pe d s).1.out.successes =
        s.out.successes ++ [false, false] ∧
      ((gn.GNstep opts pe d s).1.out.stop_reason =
          gn.StopReason.kMaxConsecFails ∨
        (gn.GNstep opts pe d s).1.out.stop_reason = gn.StopReason.kMaxFails ∨
        (gn.GNstep opts pe d s).1.out.stop_reason =
          gn.StopReason.kSolverFailed) := by
  simp only [gn.GNstep]
  simp [hn, hk, hch, hnan, hg, hsf]
  split_ifs <;> simp

/-- A recorded Cholesky failure implies the iteration's solver failed. -/
theorem mkIterData_chol_failed_solver_failed {α : Type} {n : ℕ}
    (opts : gn.Options) (ls : gn.LinSolver n) (acc : gn.AccFn α n)
    (s : gn.GNState α n)
    (h : (gn.mkIterData opts ls acc s).chol_failed = true) :
    (gn.mkIterData opts ls acc s).solver_failed = true := by
  simp only [gn.mkIterData] at h ⊢
  rcases Bool.and_eq_true _ _ |>.mp h with ⟨h1, h2⟩
  rcases Bool.and_eq_true _ _ |>.mp h1 with ⟨h3, h4⟩
  simp [h2, h3, h4]

/-- The step-quality flag is set exactly on a strict cost decrease with
no solver failure (gn.h line 200: `derr < 0.0 && !solver_failed`). -/
theorem mkIterData_good_iff {α : Type} {n : ℕ} (opts : gn.Options)
    (ls : gn.LinSolver n) (acc : gn.AccFn α n) (s : gn.GNState α n) :
    (gn.mkIterData opts ls acc s).good = true ↔
      ((gn.mkIterData opts ls acc s).derr.lt (FP.fin 0) = true ∧
        (gn.mkIterData opts ls acc s).solver_failed = false) := by
  simp only [gn.mkIterData]
  simp [Bool.and_eq_true, Bool.not_eq_true']

/-- Effects of a GOOD step of `GNstep` (gn.h lines 200-224): success
recorded, `x` moved by the step, the consecutive-failure counter reset,
the rollback flag cleared, and the snapshot updated to the pre-step `x`
(except on the very first iteration, where it already equals it). -/
theorem GNstep_good_effects {α : Type} {n : ℕ} (opts : gn.Options)
    (pe : α → Vec n → α) (d : gn.IterData n) (s : gn.GNState α n)
    (hg : d.good = true) (hn : d.nerr ≠ 0)
    (hnan : d.dX_norm2.isnan = false) :
    (gn.GNstep opts pe d s).1.X = pe s.X d.dX ∧
      (gn.GNstep opts pe d s).1.out.num_consec_failures = 0 ∧
      (gn.GNstep opts pe d s).1.out.successes = s.out.successes ++ [true] ∧
      (gn.GNstep opts pe d s).1.already_rolled_true = false ∧
      (gn.GNstep opts pe d s).1.X_last_good =
        (if 0 < s.out.num_iters then s.X else s.X_last_good) := by
  simp only [gn.GNstep, gn.tailChecks]
  by_cases hchol : d.chol_failed <;>
    simp [hg, hn, hnan, hchol] <;> split_ifs <;> simp

/-- Effects of a BAD step of `GNstep` (gn.h lines 225-255): failure
recorded, both failure counters incremented (on top of the increments
the inner solver loop already applied on a Cholesky failure), and `x`
restored to the snapshot `X_last_good` — exactly, using the rollback
invariant that whenever `already_rolled_true` holds, `x` already equals
the snapshot. -/
theorem GNstep_bad_effects {α : Type} {n : ℕ} (opts : gn.Options)
    (pe : α → Vec n → α) (d : gn.IterData n) (s : gn.GNState α n)
    (hg : d.good = false) (hnan : d.dX_norm2.isnan = false)
    (h0 : ¬(d.nerr = 0 ∧ s.out.num_iters = 0))
    (hJ : s.already_rolled_true = true → s.X = s.X_last_good) :
    (gn.GNstep opts pe d s).1.X = s.X_last_good ∧
      (gn.GNstep opts pe d s).1.X_last_good = s.X_last_good ∧
      (gn.GNstep opts pe d s).1.already_rolled_true = true ∧
      (gn.GNstep opts pe d s).1.out.num_failures =
        ((if d.chol_failed then (s.out.num_failures + 1) % 256
          else s.out.num_failures) + 1) % 256 ∧
      (gn.GNstep opts pe d s).1.out.num_consec_failures =
        ((if d.chol_failed then (s.out.num_consec_failures + 1) % 256
          else s.out.num_consec_failures) + 1) % 256 ∧
      (gn.GNstep opts pe d s).1.out.successes =
        s.out.successes ++ (if d.nerr = 0 then [false, false] else [false]) := by
  simp only [gn.GNstep, gn.tailChecks]
  by_cases hnz : d.nerr = 0
  · have hiter : ¬s.out.num_iters = 0 := fun h => h0 ⟨hnz, h⟩
    by_cases hr : s.already_rolled_true
    · have hx : s.X = s.X_last_good := hJ hr
      by_cases hchol : d.chol_failed <;>
        simp [hg, hnan, hnz, hiter, hr, hchol, hx] <;> split_ifs <;> simp
    · by_cases hchol : d.chol_failed <;>
        simp [hg, hnan, hnz, hiter, hr, hchol] <;> split_ifs <;> simp
  · by_cases hr : s.already_rolled_true
    · have hx : s.X = s.X_last_good := hJ hr
      by_cases hchol : d.chol_failed <;>
        simp [hg, hnan, hnz, hr, hchol, hx] <;> split_ifs <;> simp
    · by_cases hchol : d.chol_failed <;>
        simp [hg, hnan, hnz, hr, hchol] <;> split_ifs <;> simp

set_option maxHeartbeats 1600000 in
/-- Every path of `GNstep` preserves the rollback invariant: whenever
`already_rolled_true` holds afterwards, `x` equals the snapshot. -/
theorem GNstep_preserves_rollback_inv {α : Type} {n : ℕ}
    (opts : gn.Options) (pe : α → Vec n → α) (d : gn.IterData n)
    (s : gn.GNState α n)
    (hJ : s.already_rolled_true = true → s.X = s.X_last_good) :
    (gn.GNstep opts pe d s).1.already_rolled_true = true →
      (gn.GNstep opts pe d s).1.X = (gn.GNstep opts pe d s).1.X_last_good := by
  simp only [gn.GNstep]
  by_cases h1 : d.nerr = 0 ∧ s.out.num_iters = 0
  · rw [if_pos h1]; exact hJ
  · rw [if_neg h1]
    by_cases h2 : d.dX_norm2.isnan
    · rw [if_pos h2]; exact hJ
    · rw [if_neg h2]
      by_cases h3 : d.good
      · rw [if_pos h3]
        unfold gn.tailChecks
        split_ifs <;> intro h <;> exact absurd h (by simp)
      · rw [if_neg h3]
        unfold gn.tailChecks
        by_cases hr : s.already_rolled_true
        · have hx := hJ hr
          split_ifs <;> intro _ <;> simp [hr, hx]
        · have hrf : s.already_rolled_true = false := by
            revert hr; cases s.already_rolled_true <;> simp
          simp only [hrf, Bool.not_false]
          split_ifs <;> intro _ <;> simp

/-- The whole `gn::GN` loop preserves the rollback invariant. -/
theorem GNloop_preserves_rollback_inv {α : Type} {n : ℕ}
    (opts : gn.Options) (pe : α → Vec n → α) (ls : gn.LinSolver n)
    (acc : gn.AccFn α n) :
    ∀ (fuel : ℕ) (s : gn.GNState α n),
      (s.already_rolled_true = true → s.X = s.X_last_good) →
      ((gn.GNloop opts pe ls acc fuel s).already_rolled_true = true →
        (gn.GNloop opts pe ls acc fuel s).X =
          (gn.GNloop opts pe ls acc fuel s).X_last_good) := by
  intro fuel
  induction fuel with
  | zero => intro s hJ; exact hJ
  | succ k ih =>
    intro s hJ
    have hstep := GNstep_preserves_rollback_inv opts pe
      (gn.mkIterData opts ls acc s) s hJ
    simp only [gn.GNloop, gn.GNiter]
    split
    · exact ih _ hstep
    · exact hstep

/-! ## Claims -/

/-- C1 — the claim states that for a vector (or matrix) raw return the
accumulation-function adapter produces `cost = squared L2 (Frobenius)
norm` and `residual_count = length`.  The code
(`SolverGN::GetAccFunc`, `return std::make_pair(output.norm(),
output.size())`) takes the *unsquared* `norm()`, contradicting the
repository's own documentation (`docs/API.md`: "you can also return
`Cost(res)`, we'll take it's squared L2 norm!") and the downstream
`err.use_squared_norm` handling.  At the residual vector `(3, 4)` the
adapter returns cost `5` (`norm()`, since `5` is the nonnegative root of
`sqNorm = 25`) with count `2`, while the documented/specified cost is
`25`. -/
theorem c1_vector_cost_is_unsquared_norm :
    solvers.GetAccFunc (fun _ => 5) (solvers.UserRet.vec [3, 4]) = (5, 2) ∧
      solvers.isNormOf [3, 4] 5 ∧
      solvers.specVecAdapter [3, 4] = (25, 2) ∧
      (5 : ℚ) ≠ 25 := by
  refine ⟨rfl, ⟨by norm_num, by norm_num [solvers.sqNorm]⟩,
    ?_, by norm_num⟩
  unfold solvers.specVecAdapter
  norm_num [solvers.sqNorm]

/-- C2 — the claim (and `tests/basic.cpp`, and the unreachable
`system_has_nans` assignment at gn.h lines 256-258) demand that a NaN in
the gradient end the run with `stop_reason = kSystemHasNaNs` and
`Succeeded() == false`.  In the code the `std::isnan(dX_norm2)` check at
gn.h lines 185-193 `break`s out of the main loop *before* any stop
reason is assigned, so the run returns with the default
`stop_reason = kMaxIters` and `Succeeded() == true`. -/
theorem c2_nan_gradient_reports_default_stop_reason :
    gn.runNanGrad.out.stop_reason = gn.StopReason.kMaxIters ∧
      gn.runNanGrad.out.Succeeded = true ∧
      gn.runNanGrad.out.num_iters = 0 ∧
      gn.runNanGrad.out.stop_reason ≠ gn.StopReason.kSystemHasNaNs := by
  norm_num [gn.runNanGrad, gn.GN, gn.GNloop, gn.GNiter, gn.GNstep, gn.mkIterData,
    gn.GNinit, gn.tailChecks, gn.maxTries, squaredNorm, matvec, vneg,
    vzero, fillLower, gn.scalarPluseq, FP.add, FP.sub, FP.mul, FP.neg,
    FP.lt, FP.isnan, gn.accNanGrad, gn.lsIdentity, gn.optsPlain, fltMax,
    List.ofFn_succ, List.ofFn_zero, List.foldl, gn.Output.Succeeded]
  decide

/-- C3 — zero residuals on the very first call do stop the run with
`stop_reason = kNoResiduals` (`Skipped`) and `num_iters = 0`, but the
history vectors are *not* empty as the claim (and the repo's own
`FailureChecks` test helper) require: the initialization at gn.h lines
117-119 calls `emplace_back(out.num_iters + 2)` on `deltas2` and
`successes` (an evident slip for `reserve`, cf. line 117), and the
zero-residual path at lines 140-142 pushes one more entry into each
history before breaking, leaving `errs2 = [0]`, `deltas2 = [2, 0]`,
`successes = [true, false]`. -/
theorem c3_first_iteration_no_residuals_history_not_empty :
    gn.runNoResiduals.out.stop_reason = gn.StopReason.kNoResiduals ∧
      gn.runNoResiduals.out.num_iters = 0 ∧
      gn.runNoResiduals.out.Succeeded = false ∧
      gn.runNoResiduals.out.errs2 = [FP.fin 0] ∧
      gn.runNoResiduals.out.deltas2 = [FP.fin 2, FP.fin 0] ∧
      gn.runNoResiduals.out.successes = [true, false] := by
  norm_num [gn.runNoResiduals, gn.GN, gn.GNloop, gn.GNiter, gn.GNstep, gn.mkIterData,
    gn.GNinit, gn.tailChecks, gn.maxTries, squaredNorm, matvec, vneg,
    vzero, fillLower, gn.scalarPluseq, FP.add, FP.sub, FP.mul, FP.neg,
    FP.lt, FP.isnan, gn.accNoResiduals, gn.lsIdentity, gn.optsPlain,
    fltMax, List.ofFn_succ, List.ofFn_zero, List.foldl,
    gn.Output.Succeeded]

/-- C5 — `Converged()` holds exactly on the claimed reasons.  For the
`gn.h` output record the `StopReason` enumeration has no `MinError`
value at all and `Converged()` is true exactly for `kMinDeltaNorm` and
`kMinGradNorm` — the claimed set restricted to the reasons that exist.
For the current optimizer generation (whose `Output` is not under src/
and is modelled from the spec), `Converged` holds exactly for
`kMinDeltaNorm`, `kMinGradNorm` and `kMinError`. -/
theorem c5_converged_exactly_on_min_reasons :
    (∀ (n : ℕ) (o : gn.Output n),
        o.Converged = true ↔
          (o.stop_reason = gn.StopReason.kMinDeltaNorm ∨
            o.stop_reason = gn.StopReason.kMinGradNorm)) ∧
      (∀ r : nlls.StopReason,
        nlls.Converged r = true ↔
          (r = nlls.StopReason.kMinDeltaNorm ∨
            r = nlls.StopReason.kMinGradNorm ∨
            r = nlls.StopReason.kMinError)) := by
  constructor
  · intro n o
    cases h : o.stop_reason <;> simp [gn.Output.Converged, h]
  · intro r
    cases r <;> simp [nlls.Converged]

/-- C6 — `Succeeded()` is false exactly for the three fatal reasons
(`kSystemHasNaNs`, `kSolverFailed`, `kNoResiduals`); every other stop
reason of the `gn.h` enumeration (`kMaxIters`, `kMinDeltaNorm`,
`kMinGradNorm`, `kMaxFails`, `kMaxConsecFails`) reports success. -/
theorem c6_succeeded_iff_not_fatal :
    ∀ (n : ℕ) (o : gn.Output n),
      o.Succeeded = false ↔
        (o.stop_reason = gn.StopReason.kSystemHasNaNs ∨
          o.stop_reason = gn.StopReason.kSolverFailed ∨
          o.stop_reason = gn.StopReason.kNoResiduals) := by
  intro n o
  cases h : o.stop_reason <;> simp [gn.Output.Succeeded, h]

/-- C9 — `SolverGN::Solve`: (i)/(ii) a zero last residual count yields
`nullopt` on every path; (iii) with `use_ldlt` the result is `nullopt`
exactly when the external `SolveLDLT` fails; (iv) in the
explicit-inverse path of the `Dims == 1` instantiation, a Hessian with
`H(0,0)` at or below the floating-point epsilon yields the present zero
vector, not a failure. -/
theorem c9_solve_failure_conditions :
    (∀ (n : ℕ) (ldltSolve : MatQ n → VecQ n → Option (VecQ n))
        (invQ : MatQ n → MatQ n) (opts : solvers.Options2)
        (st : solvers.GNSolver n), st.nerr = 0 →
        solvers.GNSolver.SolveD ldltSolve invQ opts st = none) ∧
      (∀ (ldltSolve : MatQ 1 → VecQ 1 → Option (VecQ 1)) (eps : ℚ)
        (opts : solvers.Options2) (st : solvers.GNSolver 1), st.nerr = 0 →
        solvers.GNSolver.Solve1 ldltSolve eps opts st = none) ∧
      (∀ (n : ℕ) (ldltSolve : MatQ n → VecQ n → Option (VecQ n))
        (invQ : MatQ n → MatQ n) (opts : solvers.Options2)
        (st : solvers.GNSolver n), st.nerr ≠ 0 → opts.use_ldlt = true →
        (solvers.GNSolver.SolveD ldltSolve invQ opts st = none ↔
          ldltSolve st.H st.grad = none)) ∧
      (∀ (ldltSolve : MatQ 1 → VecQ 1 → Option (VecQ 1)) (eps : ℚ)
        (opts : solvers.Options2) (st : solvers.GNSolver 1), st.nerr ≠ 0 →
        opts.use_ldlt = false → st.H 0 0 ≤ eps →
        solvers.GNSolver.Solve1 ldltSolve eps opts st =
          some (fun _ => 0)) := by
  refine ⟨?_, ?_, ?_, ?_⟩
  · intro n ldltSolve invQ opts st h
    simp [solvers.GNSolver.SolveD, h]
  · intro ldltSolve eps opts st h
    simp [solvers.GNSolver.Solve1, h]
  · intro n ldltSolve invQ opts st h hl
    cases hs : ldltSolve st.H st.grad <;>
      simp [solvers.GNSolver.SolveD, h, hl, hs]
  · intro ldltSolve eps opts st h hl hle
    simp [solvers.GNSolver.Solve1, h, hl, not_lt.mpr hle]

/-- Witness for C9: at a concrete dimension-1 state with `nerr = 1`,
`H = [[1]]`, `grad = [4]`, `eps = 1`, the explicit-inverse path returns
the zero step, and at `nerr = 0` both paths return `nullopt`. -/
theorem c9_solve_failure_conditions_witness :
    solvers.GNSolver.Solve1 (fun _ _ => none) 1 solvers.opts2UpperInv
        { H := fun _ _ => 1, grad := fun _ => 4, err := 1, nerr := 1 } =
      some (fun _ => 0) ∧
      solvers.GNSolver.SolveD (n := 1) (fun _ _ => none) id
        solvers.opts2Plain (solvers.gnZero 1) = none := by
  constructor
  · exact c9_solve_failure_conditions.2.2.2 (fun _ _ => none) 1
      solvers.opts2UpperInv
      { H := fun _ _ => 1, grad := fun _ => 4, err := 1, nerr := 1 }
      (by norm_num) (by rfl) (by norm_num)
  · exact c9_solve_failure_conditions.1 1 (fun _ _ => none) id
      solvers.opts2Plain (solvers.gnZero 1) (by rfl)

/-- On a successful `SolverGN::Build` with `H_is_full = false` and
`use_ldlt = false`, the stored Hessian is the accumulated one with its
upper triangle mirrored into the lower one. -/
theorem GNSolver_build_H_mirrored {α : Type} {n : ℕ}
    (normOf : List ℚ → ℚ) (sqrtFn : ℚ → ℚ) (opts : solvers.Options2)
    (st : solvers.GNSolver n) (res_func : solvers.ResFunc α n) (x : α)
    (b : Bool) (hfull : opts.H_is_full = false)
    (hldlt : opts.use_ldlt = false)
    (hok : (solvers.GNSolver.Build normOf sqrtFn opts st res_func x b).2 = true) :
    (solvers.GNSolver.Build normOf sqrtFn opts st res_func x b).1.H =
      fillLowerQ (solvers.GNSolver.Accumulate normOf sqrtFn opts
        (if b then st.clear else st) res_func x).1.H := by
  simp only [solvers.GNSolver.Build, hfull, hldlt, Bool.not_false,
    Bool.and_self] at hok ⊢
  split_ifs at hok ⊢ <;> simp_all

/-- C8 — with an upper-triangle-only Hessian (`H_is_full` /
`JtJ_is_full == false`) and the explicit-inverse solver
(`use_ldlt` / `ldlt == false`): a successful `SolverGN::Build` stores a
symmetric Hessian whose upper triangle is exactly the one the user
function accumulated (so the subsequent `Solve` inverts the full
symmetric matrix), and in the `gn::GN` driver the step is computed by
inverting the symmetric mirror `fillLower JtJ` of the accumulated
`JtJ`. -/
theorem c8_upper_triangle_mirrored :
    (∀ (α : Type) (n : ℕ) (normOf : List ℚ → ℚ) (sqrtFn : ℚ → ℚ)
      (opts : solvers.Options2) (st : solvers.GNSolver n)
      (res_func : solvers.ResFunc α n) (x : α) (b : Bool),
      opts.H_is_full = false → opts.use_ldlt = false →
      (solvers.GNSolver.Build normOf sqrtFn opts st res_func x b).2 = true →
      ((∀ i j, (solvers.GNSolver.Build normOf sqrtFn opts st res_func x b).1.H i j =
          (solvers.GNSolver.Build normOf sqrtFn opts st res_func x b).1.H j i) ∧
        (∀ i j, i ≤ j →
          (solvers.GNSolver.Build normOf sqrtFn opts st res_func x b).1.H i j =
            (solvers.GNSolver.Accumulate normOf sqrtFn opts
              (if b then st.clear else st) res_func x).1.H i j))) ∧
      (∀ (α : Type) (n : ℕ) (opts : gn.Options) (ls : gn.LinSolver n)
        (acc : gn.AccFn α n) (s : gn.GNState α n),
        opts.ldlt = false → opts.JtJ_is_full = false →
        (gn.mkIterData opts ls acc s).entered = true →
        ((gn.mkIterData opts ls acc s).JtJ1 =
            fillLower (gn.mkIterData opts ls acc s).JtJ ∧
          (gn.mkIterData opts ls acc s).dX =
            vneg (matvec
              (ls.inverse (fillLower (gn.mkIterData opts ls acc s).JtJ))
              (gn.mkIterData opts ls acc s).Jt_res) ∧
          (∀ i j, fillLower (gn.mkIterData opts ls acc s).JtJ i j =
            fillLower (gn.mkIterData opts ls acc s).JtJ j i))) := by
  constructor
  · intro α n normOf sqrtFn opts st res_func x b hfull hldlt hok
    rw [GNSolver_build_H_mirrored normOf sqrtFn opts st res_func x b hfull
      hldlt hok]
    exact ⟨fun i j => fillLowerQ_symm _ i j,
      fun i j h => fillLowerQ_upper _ i j h⟩
  · intro α n opts ls acc s hldlt hfull he
    simp only [gn.mkIterData] at he ⊢
    simp [hldlt, hfull, he]
    exact fun i j => fillLower_symm _ i j

/-- Witness for C8: building with `resUpper2` (which writes the upper
triangle `[[1, 2], [·, 3]]`) under `opts2UpperInv` succeeds and the
mirrored entry below the diagonal equals the accumulated entry above
it; on the driver side, the explicit-inverse configuration computes the
step from the mirrored `JtJ`. -/
theorem c8_upper_triangle_mirrored_witness :
    (solvers.GNSolver.Build (fun _ => 0) id solvers.opts2UpperInv
        (solvers.gnZero 2) solvers.resUpper2 () true).1.H 1 0 =
      (solvers.GNSolver.Build (fun _ => 0) id solvers.opts2UpperInv
        (solvers.gnZero 2) solvers.resUpper2 () true).1.H 0 1 ∧
      (solvers.GNSolver.Build (fun _ => 0) id solvers.opts2UpperInv
        (solvers.gnZero 2) solvers.resUpper2 () true).1.H 0 1 =
      (solvers.GNSolver.Accumulate (fun _ => 0) id solvers.opts2UpperInv
        (if true then (solvers.gnZero 2).clear else solvers.gnZero 2)
        solvers.resUpper2 ()).1.H 0 1 ∧
      (gn.mkIterData gn.optsUpperInv gn.lsIdentity gn.accHealthy
          (gn.GNinit 1 (FP.fin 1))).JtJ1 =
        fillLower (gn.mkIterData gn.optsUpperInv gn.lsIdentity gn.accHealthy
          (gn.GNinit 1 (FP.fin 1))).JtJ := by
  have h := c8_upper_triangle_mirrored.1 Unit 2 (fun _ => 0) id
    solvers.opts2UpperInv (solvers.gnZero 2) solvers.resUpper2 () true
    rfl rfl (by
      norm_num [solvers.GNSolver.Build, solvers.GNSolver.Accumulate,
        solvers.GNSolver.clear, solvers.GetAccFunc, solvers.Clamp,
        solvers.gnZero, solvers.resUpper2, solvers.opts2UpperInv,
        solvers.opts2Plain])
  have h2 := c8_upper_triangle_mirrored.2 FP 1 gn.optsUpperInv
    gn.lsIdentity gn.accHealthy (gn.GNinit 1 (FP.fin 1)) rfl rfl
    (by
      norm_num [gn.mkIterData, gn.accHealthy, gn.lsIdentity,
        gn.optsUpperInv, gn.GNinit, gn.maxTries])
  exact ⟨h.1 1 0, h.2 0 1 (by decide), h2.1⟩

/-- C10 counterexample — the claim says that after *every* `Build` with
`grad_clipping = c ≠ 0` the stored gradient lies in `[-c, c]`.
`SolverGN::Build` returns before the `Clamp` call when the accumulation
reports zero residuals, so a user function that writes the gradient
coefficient `100` but returns a zero residual count leaves the stored
gradient at `100 ∉ [-5, 5]` even though `grad_clipping = 5`. -/
theorem c10_failed_build_skips_clamp :
    (solvers.GNSolver.Build (fun _ => 0) id solvers.opts2Clip5
        (solvers.gnZero 1) solvers.resBigGradNoRes () true).2 = false ∧
      (solvers.GNSolver.Build (fun _ => 0) id solvers.opts2Clip5
        (solvers.gnZero 1) solvers.resBigGradNoRes () true).1.grad 0 = 100 ∧
      solvers.opts2Clip5.grad_clipping = 5 ∧ ¬((100 : ℚ) ≤ 5) := by
  refine ⟨?_, ?_, by norm_num [solvers.opts2Clip5, solvers.opts2Plain],
    by norm_num⟩ <;>
    norm_num [solvers.GNSolver.Build, solvers.GNSolver.Accumulate,
      solvers.GNSolver.clear, solvers.GetAccFunc, solvers.Clamp,
      solvers.gnZero, solvers.resBigGradNoRes, solvers.opts2Clip5,
      solvers.opts2Plain]

/-- C10 amended — with `grad_clipping = c > 0`: after every
`SolverGN::Build` that returns `true`, and after every `SolverGD::Build`
(which clamps unconditionally), every stored gradient coefficient lies
in `[-c, c]`; and with `c = 0` the `Clamp` call leaves the gradient
unchanged and returns `false`. -/
theorem c10_clipping_bounds_amended :
    (∀ (α : Type) (n : ℕ) (normOf : List ℚ → ℚ) (sqrtFn : ℚ → ℚ)
        (opts : solvers.Options2) (st : solvers.GNSolver n)
        (res_func : solvers.ResFunc α n) (x : α) (b : Bool),
        0 < opts.grad_clipping →
        (solvers.GNSolver.Build normOf sqrtFn opts st res_func x b).2 = true →
        ∀ i, -opts.grad_clipping ≤
            (solvers.GNSolver.Build normOf sqrtFn opts st res_func x b).1.grad i ∧
          (solvers.GNSolver.Build normOf sqrtFn opts st res_func x b).1.grad i ≤
            opts.grad_clipping) ∧
      (∀ (α : Type) (n : ℕ) (opts : solvers.OptionsGD)
        (st : solvers.GDSolver n) (acc : solvers.AccFuncGD α n) (x : α)
        (b : Bool), 0 < opts.grad_clipping →
        ∀ i, -opts.grad_clipping ≤
            (solvers.GDSolver.Build opts st acc x b).1.grad i ∧
          (solvers.GDSolver.Build opts st acc x b).1.grad i ≤
            opts.grad_clipping) ∧
      (∀ (n : ℕ) (g : VecQ n), solvers.Clamp g 0 = (g, false)) := by
  refine ⟨?_, ?_, fun n g => by simp [solvers.Clamp]⟩
  · intro α n normOf sqrtFn opts st res_func x b hc hok i
    simp only [solvers.GNSolver.Build] at hok ⊢
    split_ifs at hok ⊢ <;> simp_all <;> exact clamp_mem _ _ hc i
  · intro α n opts st acc x b hc i
    simp only [solvers.GDSolver.Build]
    exact clamp_mem _ _ hc i

/-- Witness for C10's amended theorem: concrete builds with gradient `7`
and clipping bound `5` store the coefficient `5 ∈ [-5, 5]`, and `Clamp`
with bound `0` reports `false`. -/
theorem c10_clipping_bounds_amended_witness :
    (-(5 : ℚ) ≤ (solvers.GNSolver.Build (fun _ => 0) id solvers.opts2Clip5
        (solvers.gnZero 1) solvers.resGrad7 () true).1.grad 0 ∧
      (solvers.GNSolver.Build (fun _ => 0) id solvers.opts2Clip5
        (solvers.gnZero 1) solvers.resGrad7 () true).1.grad 0 ≤ 5) ∧
      (-(5 : ℚ) ≤ (solvers.GDSolver.Build solvers.optsGDClip5
          { grad := fun _ => 0, err := 0, nerr := 0 }
          solvers.accGrad7GD () true).1.grad 0 ∧
        (solvers.GDSolver.Build solvers.optsGDClip5
          { grad := fun _ => 0, err := 0, nerr := 0 }
          solvers.accGrad7GD () true).1.grad 0 ≤ 5) ∧
      (solvers.Clamp (fun _ : Fin 1 => (3 : ℚ)) 0).2 = false := by
  have hc5 : solvers.opts2Clip5.grad_clipping = 5 := by
    norm_num [solvers.opts2Clip5, solvers.opts2Plain]
  have hgd5 : solvers.optsGDClip5.grad_clipping = 5 := rfl
  refine ⟨?_, ?_, ?_⟩
  · have h := (c10_clipping_bounds_amended.1 Unit 1 (fun _ => 0) id
      solvers.opts2Clip5 (solvers.gnZero 1) solvers.resGrad7 () true
      (by rw [hc5]; norm_num)
      (by
        norm_num [solvers.GNSolver.Build, solvers.GNSolver.Accumulate,
          solvers.GNSolver.clear, solvers.GetAccFunc, solvers.Clamp,
          solvers.gnZero, solvers.resGrad7, solvers.opts2Clip5,
          solvers.opts2Plain])) 0
    rwa [hc5] at h
  · have h := (c10_clipping_bounds_amended.2.1 Unit 1 solvers.optsGDClip5
      { grad := fun _ => 0, err := 0, nerr := 0 } solvers.accGrad7GD ()
      true (by rw [hgd5]; norm_num)) 0
    rwa [hgd5] at h
  · have h := c10_clipping_bounds_amended.2.2 1 (fun _ : Fin 1 => (3 : ℚ))
    rw [h]

/-- C7 counterexample — the claim says a zero-residual iteration after
the first is "counted as a failed step (failure counters incremented,
loop continues subject to the failure budgets) rather than causing an
immediate terminal stop".  In the run below the second iteration reports
zero residuals while both failure budgets are 10; the counters are
incremented to 1 (far below budget), but the loop does *not* continue:
`skip_solver` leaves `solver_failed` set and the iteration ends the run
with the fatal `kSolverFailed` (gn.h lines 259-262),
`Succeeded() == false`. -/
theorem c7_late_zero_residuals_fatal_stop :
    gn.runLateNoResiduals.out.stop_reason = gn.StopReason.kSolverFailed ∧
      gn.runLateNoResiduals.out.num_iters = 1 ∧
      gn.runLateNoResiduals.out.num_failures = 1 ∧
      gn.runLateNoResiduals.out.num_consec_failures = 1 ∧
      gn.runLateNoResiduals.out.Succeeded = false ∧
      gn.optsBudget10.max_consec_failures = 10 ∧
      gn.optsBudget10.max_total_failures = 10 := by
  norm_num [gn.runLateNoResiduals, gn.GN, gn.GNloop, gn.GNiter, gn.GNstep,
    gn.mkIterData, gn.GNinit, gn.tailChecks, gn.maxTries, squaredNorm,
    matvec, vneg, vzero, fillLower, gn.scalarPluseq, FP.add, FP.sub,
    FP.mul, FP.neg, FP.lt, FP.isnan, gn.accLateNoResiduals, gn.lsIdentity,
    gn.optsBudget10, fltMax, List.ofFn_succ, List.ofFn_zero, List.foldl,
    gn.Output.Succeeded]

/-- C7 amended — for every evaluator reporting zero residuals on an
iteration after the first, that iteration is counted as a failed step
(both failure counters incremented once, a failure recorded in the
history), but the run still stops in that same iteration: with
`kMaxConsecFails` / `kMaxFails` when a failure budget is reached, and
otherwise with the fatal `kSolverFailed` — never by continuing the
loop. -/
theorem c7_late_zero_residuals_amended :
    ∀ (α : Type) (n : ℕ) (opts : gn.Options) (pe : α → Vec n → α)
      (ls : gn.LinSolver n) (acc : gn.AccFn α n) (s : gn.GNState α n),
      (gn.mkIterData opts ls acc s).nerr = 0 → s.out.num_iters ≠ 0 →
      ((gn.GNiter opts pe ls acc s).2 = false ∧
        (gn.GNiter opts pe ls acc s).1.out.num_failures =
          (s.out.num_failures + 1) % 256 ∧
        (gn.GNiter opts pe ls acc s).1.out.num_consec_failures =
          (s.out.num_consec_failures + 1) % 256 ∧
        (gn.GNiter opts pe ls acc s).1.out.successes =
          s.out.successes ++ [false, false] ∧
        ((gn.GNiter opts pe ls acc s).1.out.stop_reason =
            gn.StopReason.kMaxConsecFails ∨
          (gn.GNiter opts pe ls acc s).1.out.stop_reason =
            gn.StopReason.kMaxFails ∨
          (gn.GNiter opts pe ls acc s).1.out.stop_reason =
            gn.StopReason.kSolverFailed)) := by
  intro α n opts pe ls acc s hn hk
  obtain ⟨hsf, hch, hd0, hg⟩ := mkIterData_nerr_zero opts ls acc s hn
  have hnan : (gn.mkIterData opts ls acc s).dX_norm2.isnan = false := by
    rw [hd0]; rfl
  simp only [gn.GNiter]
  exact GNstep_nerr_zero_later opts pe _ s hn hk hsf hch hnan hg

/-- Witness for C7's amended theorem: at the state reached after the
accepted first step of `runLateNoResiduals`, the zero-residual second
iteration increments both counters from 0 to 1, records two failure
entries, and breaks. -/
theorem c7_late_zero_residuals_amended_witness :
    (gn.GNiter gn.optsBudget10 gn.scalarPluseq gn.lsIdentity
        gn.accLateNoResiduals gn.stateAfterGoodStep).2 = false ∧
      (gn.GNiter gn.optsBudget10 gn.scalarPluseq gn.lsIdentity
        gn.accLateNoResiduals gn.stateAfterGoodStep).1.out.num_failures = 1 ∧
      (gn.GNiter gn.optsBudget10 gn.scalarPluseq gn.lsIdentity
        gn.accLateNoResiduals
        gn.stateAfterGoodStep).1.out.num_consec_failures = 1 := by
  have h := c7_late_zero_residuals_amended FP 1 gn.optsBudget10
    gn.scalarPluseq gn.lsIdentity gn.accLateNoResiduals
    gn.stateAfterGoodStep
    (by
      norm_num [gn.mkIterData, gn.accLateNoResiduals, gn.stateAfterGoodStep])
    (by norm_num [gn.stateAfterGoodStep])
  refine ⟨h.1, ?_, ?_⟩
  · rw [h.2.1]; norm_num [gn.stateAfterGoodStep]
  · rw [h.2.2.1]; norm_num [gn.stateAfterGoodStep]

/-- C4 counterexample — the claim says a tentative step is accepted
"exactly when the newly evaluated cost is strictly lower than the last
accepted cost".  In the run below the only evaluated iteration has cost
`1`, strictly below the last accepted cost (the initial
`last_err2 = FLT_MAX`), yet it is rejected because the Cholesky
factorization of the `[[-1]]` Hessian fails: the recorded success flag
is `false` (the leading `true` is the spurious init entry of
`Output::successes`, cf. C3) and `x` is left at its initial value.
Moreover both failure counters end at 2, not 1: the inner solver loop
increments them once on the Cholesky failure (gn.h lines 177-178) and
the rejection branch increments them again (lines 243-244). -/
theorem c4_reject_despite_cost_decrease :
    gn.runCholReject.out.errs2 = [FP.fin 1] ∧
      FP.lt (FP.fin 1) (FP.fin fltMax) = true ∧
      gn.runCholReject.out.successes = [true, false] ∧
      gn.runCholReject.out.num_failures = 2 ∧
      gn.runCholReject.out.num_consec_failures = 2 ∧
      gn.runCholReject.X = FP.fin 1 ∧
      gn.runCholReject.out.stop_reason = gn.StopReason.kMaxConsecFails := by
  norm_num [gn.runCholReject, gn.GN, gn.GNloop, gn.GNiter, gn.GNstep,
    gn.mkIterData, gn.GNinit, gn.tailChecks, gn.maxTries, squaredNorm,
    matvec, vneg, vzero, fillLower, gn.scalarPluseq, FP.add, FP.sub,
    FP.mul, FP.neg, FP.lt, FP.isnan, gn.accNegHessian, gn.lsNotPositive,
    gn.optsPlain, fltMax, List.ofFn_succ, List.ofFn_zero, List.foldl]

/-- C4 amended — (i) a step is accepted exactly when the newly evaluated
cost is strictly lower than the last accepted cost *and* the linear
solver did not fail on that iteration; (ii) on acceptance `x` is moved
by the step, the consecutive-failure counter is reset, a success is
recorded and the rollback snapshot becomes the pre-step `x`; (iii) on
every rejection a failure is recorded, both failure counters are
incremented (a second time when the Cholesky factorization failed, the
inner solver loop having already incremented them once) and `x` is
restored exactly to the snapshot `X_last_good`; (iv) the rollback
invariant — whenever the driver has rolled back, `x` equals the
snapshot — is preserved by the whole loop, and (v) holds initially,
where both `x` and the snapshot are the caller's initial value. -/
theorem c4_accept_reject_amended :
    (∀ (α : Type) (n : ℕ) (opts : gn.Options) (ls : gn.LinSolver n)
        (acc : gn.AccFn α n) (s : gn.GNState α n),
        (gn.mkIterData opts ls acc s).good = true ↔
          ((gn.mkIterData opts ls acc s).derr.lt (FP.fin 0) = true ∧
            (gn.mkIterData opts ls acc s).solver_failed = false)) ∧
      (∀ (α : Type) (n : ℕ) (opts : gn.Options) (pe : α → Vec n → α)
        (ls : gn.LinSolver n) (acc : gn.AccFn α n) (s : gn.GNState α n),
        (gn.mkIterData opts ls acc s).good = true →
        (gn.mkIterData opts ls acc s).dX_norm2.isnan = false →
        ((gn.GNiter opts pe ls acc s).1.X =
            pe s.X (gn.mkIterData opts ls acc s).dX ∧
          (gn.GNiter opts pe ls acc s).1.out.num_consec_failures = 0 ∧
          (gn.GNiter opts pe ls acc s).1.out.successes =
            s.out.successes ++ [true] ∧
          (gn.GNiter opts pe ls acc s).1.already_rolled_true = false ∧
          (gn.GNiter opts pe ls acc s).1.X_last_good =
            (if 0 < s.out.num_iters then s.X else s.X_last_good))) ∧
      (∀ (α : Type) (n : ℕ) (opts : gn.Options) (pe : α → Vec n → α)
        (ls : gn.LinSolver n) (acc : gn.AccFn α n) (s : gn.GNState α n),
        (gn.mkIterData opts ls acc s).good = false →
        (gn.mkIterData opts ls acc s).dX_norm2.isnan = false →
        ¬((gn.mkIterData opts ls acc s).nerr = 0 ∧ s.out.num_iters = 0) →
        (s.already_rolled_true = true → s.X = s.X_last_good) →
        ((gn.GNiter opts pe ls acc s).1.X = s.X_last_good ∧
          (gn.GNiter opts pe ls acc s).1.X_last_good = s.X_last_good ∧
          (gn.GNiter opts pe ls acc s).1.already_rolled_true = true ∧
          (gn.GNiter opts pe ls acc s).1.out.num_failures =
            ((if (gn.mkIterData opts ls acc s).chol_failed then
                (s.out.num_failures + 1) % 256
              else s.out.num_failures) + 1) % 256 ∧
          (gn.GNiter opts pe ls acc s).1.out.num_consec_failures =
            ((if (gn.mkIterData opts ls acc s).chol_failed then
                (s.out.num_consec_failures + 1) % 256
              else s.out.num_consec_failures) + 1) % 256 ∧
          (gn.GNiter opts pe ls acc s).1.out.successes =
            s.out.successes ++
              (if (gn.mkIterData opts ls acc s).nerr = 0 then [false, false]
                else [false]))) ∧
      (∀ (α : Type) (n : ℕ) (opts : gn.Options) (pe : α → Vec n → α)
        (ls : gn.LinSolver n) (acc : gn.AccFn α n) (fuel : ℕ)
        (s : gn.GNState α n),
        (s.already_rolled_true = true → s.X = s.X_last_good) →
        ((gn.GNloop opts pe ls acc fuel s).already_rolled_true = true →
          (gn.GNloop opts pe ls acc fuel s).X =
            (gn.GNloop opts pe ls acc fuel s).X_last_good)) ∧
      (∀ (α : Type) (n : ℕ) (X0 : α),
        (gn.GNinit n X0 : gn.GNState α n).already_rolled_true = true ∧
          (gn.GNinit n X0 : gn.GNState α n).X = X0 ∧
          (gn.GNinit n X0 : gn.GNState α n).X_last_good = X0) := by
  refine ⟨fun α n opts ls acc s => mkIterData_good_iff opts ls acc s,
    ?_, ?_, ?_, fun α n X0 => ⟨rfl, rfl, rfl⟩⟩
  · intro α n opts pe ls acc s hg hnan
    have hn : (gn.mkIterData opts ls acc s).nerr ≠ 0 := by
      intro h
      have := (mkIterData_nerr_zero opts ls acc s h).2.2.2
      rw [hg] at this
      exact Bool.true_eq_false.mp this
    simp only [gn.GNiter]
    exact GNstep_good_effects opts pe _ s hg hn hnan
  · intro α n opts pe ls acc s hg hnan h0 hJ
    simp only [gn.GNiter]
    exact GNstep_bad_effects opts pe _ s hg hnan h0 hJ
  · intro α n opts pe ls acc fuel s hJ
    exact GNloop_preserves_rollback_inv opts pe ls acc fuel s hJ

/-- Witness for C4's amended theorem: on the healthy 1×1 system from the
initial state, the first step is good — `x` moves from 1 to 0, a success
is recorded, the rollback flag is cleared — and the rollback invariant
holds after a full run. -/
theorem c4_accept_reject_amended_witness :
    (gn.GNiter gn.optsBudget10 gn.scalarPluseq gn.lsIdentity gn.accHealthy
        (gn.GNinit 1 (FP.fin 1))).1.X = FP.fin 0 ∧
      (gn.GNiter gn.optsBudget10 gn.scalarPluseq gn.lsIdentity
        gn.accHealthy (gn.GNinit 1 (FP.fin 1))).1.already_rolled_true =
        false ∧
      (gn.GNiter gn.optsBudget10 gn.scalarPluseq gn.lsIdentity
        gn.accHealthy (gn.GNinit 1 (FP.fin 1))).1.out.successes =
        [true, true] ∧
      ((gn.GNloop gn.optsBudget10 gn.scalarPluseq gn.lsIdentity
          gn.accHealthy 3 (gn.GNinit 1 (FP.fin 1))).already_rolled_true =
          true →
        (gn.GNloop gn.optsBudget10 gn.scalarPluseq gn.lsIdentity
          gn.accHealthy 3 (gn.GNinit 1 (FP.fin 1))).X =
          (gn.GNloop gn.optsBudget10 gn.scalarPluseq gn.lsIdentity
            gn.accHealthy 3 (gn.GNinit 1 (FP.fin 1))).X_last_good) := by
  have hg : (gn.mkIterData gn.optsBudget10 gn.lsIdentity gn.accHealthy
      (gn.GNinit 1 (FP.fin 1))).good = true := by
    norm_num [gn.mkIterData, gn.accHealthy, gn.lsIdentity, gn.optsBudget10,
      gn.GNinit, gn.maxTries, squaredNorm, matvec, vneg, vzero, FP.add,
      FP.sub, FP.mul, FP.neg, FP.lt, FP.isnan, fltMax, List.ofFn_succ,
      List.ofFn_zero, List.foldl]
  have hnan : (gn.mkIterData gn.optsBudget10 gn.lsIdentity gn.accHealthy
      (gn.GNinit 1 (FP.fin 1))).dX_norm2.isnan = false := by
    norm_num [gn.mkIterData, gn.accHealthy, gn.lsIdentity, gn.optsBudget10,
      gn.GNinit, gn.maxTries, squaredNorm, matvec, vneg, vzero, FP.add,
      FP.sub, FP.mul, FP.neg, FP.lt, FP.isnan, fltMax, List.ofFn_succ,
      List.ofFn_zero, List.foldl]
  have h := c4_accept_reject_amended.2.1 FP 1 gn.optsBudget10
    gn.scalarPluseq gn.lsIdentity gn.accHealthy (gn.GNinit 1 (FP.fin 1))
    hg hnan
  have hloop := c4_accept_reject_amended.2.2.2.1 FP 1 gn.optsBudget10
    gn.scalarPluseq gn.lsIdentity gn.accHealthy 3 (gn.GNinit 1 (FP.fin 1))
    (fun _ => rfl)
  refine ⟨?_, h.2.2.2.1, ?_, hloop⟩
  · rw [h.1]
    norm_num [gn.mkIterData, gn.accHealthy, gn.lsIdentity, gn.optsBudget10,
      gn.GNinit, gn.maxTries, gn.scalarPluseq, squaredNorm, matvec, vneg,
      vzero, FP.add, FP.sub, FP.mul, FP.neg, FP.lt, FP.isnan, fltMax,
      List.ofFn_succ, List.ofFn_zero, List.foldl]
  · rw [h.2.2.1]
    norm_num [gn.GNinit]

end Tinyopt
